import Mathlib

/-!
Shallow embedding of the `ConsoleTools` C++ library
(`Example/includes/ConsoleTools.cpp`) in Lean 4, together with theorems
checking the library's specification against the code.

Modelling conventions:
* C++ `int` parameters are modelled as `Int`; a C++ loop
  `for (int i = 0; i < n; i++)` runs `n.toNat` times (zero times for a
  negative bound), which `Int.toNat` captures exactly.
* `std::string` is modelled as `String`; sequential `append`/`push_back`
  calls become left-associated `++`.
* The `double` arithmetic in the progress-bar functions
  (`(double)cur / max`, truncated to `int` after scaling) is idealised as
  exact rational arithmetic: `static_cast<int>((double)c / m * w)` is
  modelled as the truncated integer quotient `Int.tdiv (c * w) m`
  (truncation toward zero, as the C++ cast does).  The division
  `0.0 / 0.0` performed by `ProgressBar` when `MaxProgress == 0` yields
  NaN, and casting NaN to `int` is undefined behaviour, so `ProgressBar`
  is modelled as returning `Option String`, with `none` in that case.
* Console I/O in `PromptNumberedMenu` is modelled by explicit state:
  stdin is a list of input lines, and the function returns the produced
  value together with the text written to stdout and stderr and the
  input lines left unread.
-/

namespace ConsoleTools

namespace Color

/-- Escape code Color::RED ("\033[31m" in the source). -/
def RED : String := "\x1b[31m"

/-- Escape code Color::LIGHT_RED ("\033[91m" in the source). -/
def LIGHT_RED : String := "\x1b[91m"

/-- Escape code Color::LIGHT_YELLOW ("\033[93m" in the source). -/
def LIGHT_YELLOW : String := "\x1b[93m"

/-- Escape code Color::RESET ("\033[0m" in the source). -/
def RESET : String := "\x1b[0m"

end Color

/-- Result of a C++ loop `for (int i = 0; i < n; i++) acc.append(piece);`
starting from the empty string: `piece` appended `n` times. -/
def appendLoop (piece : String) : Nat → String
  | 0 => ""
  | n + 1 => appendLoop piece n ++ piece

/-- The same loop with a C++ `int` bound: a negative bound runs zero
iterations. -/
def strRepeat (piece : String) (count : Int) : String :=
  appendLoop piece count.toNat

/-- Embedding of ConsoleTools::Spacing: builds a string by appending `"\n"` once per
loop iteration, `NumberOfSpaces` times. -/
def Spacing (NumberOfSpaces : Int) : String :=
  strRepeat "\n" NumberOfSpaces

/-- Embedding of ConsoleTools::Header: repeated line segment on both sides, spacing
characters, colored text, and a final unconditional `Color::RESET`. -/
def Header (LineCharacter : String) (LineCharacterCount : Int)
    (HeaderText SpacingCharacter LineColor HeaderTextColor
      SpacingCharacterColor : String) : String :=
  let lineSegment := strRepeat LineCharacter LineCharacterCount
  LineColor ++ lineSegment
    ++ SpacingCharacterColor ++ SpacingCharacter
    ++ HeaderTextColor ++ HeaderText
    ++ SpacingCharacterColor ++ SpacingCharacter
    ++ LineColor ++ lineSegment
    ++ Color.RESET

/-- Embedding of ConsoleTools::AdvancedHeader: independent left/right segments and
colors; `Color::RESET` is appended only when `ResetColorOnEnd` is true. -/
def AdvancedHeader (LeftLineCharacter : String) (LeftLineCharacterCount : Int)
    (RightLineCharacter : String) (RightLineCharacterCount : Int)
    (HeaderText SpacingCharacter LeftLineColor RightLineColor
      HeaderTextColor SpacingCharacterColor : String)
    (ResetColorOnEnd : Bool) : String :=
  let LlineSegment := strRepeat LeftLineCharacter LeftLineCharacterCount
  let RlineSegment := strRepeat RightLineCharacter RightLineCharacterCount
  let header :=
    LeftLineColor ++ LlineSegment
      ++ SpacingCharacterColor ++ SpacingCharacter
      ++ HeaderTextColor ++ HeaderText
      ++ SpacingCharacterColor ++ SpacingCharacter
      ++ RightLineColor ++ RlineSegment
  if ResetColorOnEnd then header ++ Color.RESET else header

/-- Embedding of ConsoleTools::ProgressBar.  The source clamps `CurrentProgress`
first to at most `MaxProgress` and then to at least `0`, and then divides
by `MaxProgress` with NO zero guard: when `MaxProgress == 0` the division
`0.0 / 0.0` produces NaN and the subsequent `static_cast<int>` is
undefined behaviour, modelled as `none`. -/
def ProgressBar (CurrentProgress MaxProgress BarWidth : Int)
    (BarColor : String) (ShowPercentage : Bool)
    (PercentageColor : String) : Option String :=
  let c₁ := if CurrentProgress > MaxProgress then MaxProgress else CurrentProgress
  let c₂ := if c₁ < 0 then 0 else c₁
  if MaxProgress = 0 then
    none
  else
    let filledWidth := Int.tdiv (c₂ * BarWidth) MaxProgress
    let remainingWidth := BarWidth - filledWidth
    let bar := BarColor ++ strRepeat "#" filledWidth
      ++ strRepeat "-" remainingWidth ++ Color.RESET
    if ShowPercentage then
      let percentage := Int.tdiv (c₂ * 100) MaxProgress
      some (bar ++ " " ++ PercentageColor ++ toString percentage ++ "%" ++ Color.RESET)
    else
      some bar

/-- Embedding of ConsoleTools::AdvancedProgressBar.  Clamps `CurrentPercentage`
first to at least `0` and then to at most `MaxPercentage`; guards the
division (`progress = 0.0` when `MaxPercentage == 0`); prefix, brackets,
bar, percentage, suffix and reset are appended conditionally exactly as
in the source. -/
def AdvancedProgressBar (CurrentPercentage MaxPercentage BarWidth : Int)
    (PrefixText SuffixText FillChar UnfilledChar FillColor UnfilledColor
      TextColor PrefixColor SuffixColor BracketColor : String)
    (ShowPercentage ShowBrackets ResetColorOnCompletion : Bool) : String :=
  let c₁ := if CurrentPercentage < 0 then 0 else CurrentPercentage
  let c₂ := if c₁ > MaxPercentage then MaxPercentage else c₁
  let filledWidth := if MaxPercentage ≠ 0 then Int.tdiv (c₂ * BarWidth) MaxPercentage else 0
  let remainingWidth := BarWidth - filledWidth
  (if PrefixText = "" then "" else PrefixColor ++ PrefixText)
    ++ (if ShowBrackets then BracketColor ++ "[" else "")
    ++ FillColor ++ strRepeat FillChar filledWidth
    ++ UnfilledColor ++ strRepeat UnfilledChar remainingWidth
    ++ (if ShowBrackets then BracketColor ++ "]" else "")
    ++ (if ShowPercentage then
          let percentageValue := if MaxPercentage ≠ 0 then Int.tdiv (c₂ * 100) MaxPercentage else 0
          TextColor ++ " " ++ toString percentageValue ++ "%"
        else "")
    ++ (if SuffixText = "" then "" else " " ++ SuffixColor ++ SuffixText)
    ++ (if ResetColorOnCompletion then Color.RESET else "")

/-- Embedding of ConsoleTools::Error: `LIGHT_RED`, the tag `"[ERROR]: "`, then the
message; nothing else is appended. -/
def Error (Message : String) : String :=
  Color.LIGHT_RED ++ "[ERROR]: " ++ Message

/-- Embedding of ConsoleTools::Warning: `LIGHT_YELLOW`, the tag `"[WARNING]: "`,
then the message; nothing else is appended. -/
def Warning (Message : String) : String :=
  Color.LIGHT_YELLOW ++ "[WARNING]: " ++ Message

/-- Failure modes of `std::stoi`: `std::invalid_argument` when no digits
can be parsed, `std::out_of_range` when the parsed value does not fit in
`int`. -/
inductive StoiError where
  | invalidArgument
  | outOfRange
deriving DecidableEq, Repr

/-- C/C++ `isspace` in the default locale. -/
def isSpaceChar (c : Char) : Bool :=
  c = ' ' || c = '\t' || c = '\n' || c = '\x0b' || c = '\x0c' || c = '\r'

/-- Numeric value of a list of decimal digit characters. -/
def digitsToNat (ds : List Char) : Nat :=
  ds.foldl (fun acc c => acc * 10 + (c.toNat - '0'.toNat)) 0

/-- Model of std::stoi (base 10): skip leading whitespace, read an optional
sign, then a maximal run of decimal digits (trailing characters are
ignored).  No digits → `invalid_argument`; a value outside the `int`
range → `out_of_range`. -/
def stoi (s : String) : Except StoiError Int :=
  let cs := s.data.dropWhile isSpaceChar
  let signAndRest : Int × List Char :=
    match cs with
    | '+' :: rest => (1, rest)
    | '-' :: rest => (-1, rest)
    | _ => (1, cs)
  let digits := signAndRest.2.takeWhile Char.isDigit
  if digits.isEmpty then
    .error .invalidArgument
  else
    let v : Int := signAndRest.1 * (digitsToNat digits : Int)
    if v < -2147483648 ∨ 2147483647 < v then .error .outOfRange
    else .ok v

/-- Observable outcome of `ConsoleTools::PromptNumberedMenu`: the
returned `int`, the text written to `std::cout` and `std::cerr`, and the
stdin lines left unread. -/
structure MenuOutcome where
  result : Int
  stdoutText : String
  stderrText : String
  remainingInput : List String
deriving DecidableEq, Repr

/-- The option-listing loop of `PromptNumberedMenu`: one line per option,
numbered from 1 (`std::endl` prints a newline). -/
def menuOptionLines (Options : List String)
    (NumberColor SeperatorColor SeperatorCharacter OptionColor : String) :
    String :=
  String.join ((Options.enum).map (fun p =>
    NumberColor ++ toString (p.1 + 1)
      ++ SeperatorColor ++ SeperatorCharacter
      ++ OptionColor ++ p.2
      ++ Color.RESET ++ "\n"))

/-- Text printed by `PromptNumberedMenu` to stdout before it reads
input: the prompt message, the numbered option lines, and the input
question (with `std::endl`/`"\n"` exactly as in the source). -/
def menuPromptText (Options : List String)
    (SeperatorCharacter PromptMessage InputQuestionText MessageColor
      NumberColor SeperatorColor OptionColor
      InputQuestionColor : String) : String :=
  MessageColor ++ PromptMessage ++ "\n"
    ++ menuOptionLines Options NumberColor SeperatorColor SeperatorCharacter OptionColor
    ++ InputQuestionColor ++ "\n" ++ InputQuestionText ++ NumberColor

/-- Embedding of ConsoleTools::PromptNumberedMenu.  Empty options: error on stderr,
return `-1` with nothing printed to stdout and no input read.  Otherwise
print the prompt, the numbered options and the input question, read ONE
line, and: on read failure or a `stoi` exception or an out-of-range
choice, print the corresponding error text and return `-1`; on a choice
in `[1, Options.size()]`, return `choice - 1`.  There is no loop. -/
def PromptNumberedMenu (Options : List String)
    (SeperatorCharacter PromptMessage InputQuestionText MessageColor
      NumberColor SeperatorColor OptionColor InputQuestionColor
      ErrorColor : String)
    (stdinLines : List String) : MenuOutcome :=
  if Options.isEmpty then
    { result := -1, stdoutText := "", stderrText := "No menu options provided.\n",
      remainingInput := stdinLines }
  else
    let pre := MessageColor ++ PromptMessage ++ "\n"
      ++ menuOptionLines Options NumberColor SeperatorColor SeperatorCharacter OptionColor
      ++ InputQuestionColor ++ "\n" ++ InputQuestionText ++ NumberColor
    match stdinLines with
    | [] =>
      { result := -1, stdoutText := pre ++ ErrorColor ++ Color.RESET,
        stderrText := "Input error. Exiting.\n", remainingInput := [] }
    | input :: rest =>
      match stoi input with
      | .ok choice =>
        if choice < 1 ∨ (Options.length : Int) < choice then
          { result := -1,
            stdoutText := pre ++ ErrorColor
              ++ "Invalid choice. Please enter a number between 1 and "
              ++ toString Options.length ++ ".\n\n"
              ++ Color.RESET ++ Color.RESET,
            stderrText := "", remainingInput := rest }
        else
          { result := choice - 1, stdoutText := pre ++ Color.RESET,
            stderrText := "", remainingInput := rest }
      | .error .invalidArgument =>
        { result := -1,
          stdoutText := pre ++ ErrorColor
            ++ "Invalid input. Please enter a numeric value.\n\n"
            ++ Color.RESET ++ Color.RESET,
          stderrText := "", remainingInput := rest }
      | .error .outOfRange =>
        { result := -1,
          stdoutText := pre ++ ErrorColor
            ++ "The number you entered is out of range. Please try again.\n\n"
            ++ Color.RESET ++ Color.RESET,
          stderrText := "", remainingInput := rest }

end ConsoleTools

open ConsoleTools

/-! ## Helper lemmas -/

/-- Character data of the loop-built repetition: the concatenation of
`n` copies of the piece. -/
theorem appendLoop_data (piece : String) (n : Nat) :
    (appendLoop piece n).data = (List.replicate n piece.data).flatten := by
  induction n with
  | zero => rfl
  | succ k ih =>
    rw [List.replicate_succ' k piece.data]
    simp [appendLoop, String.data_append, ih]

/-- Flattening replicated singleton lists gives a replicated list. -/
theorem flatten_replicate_singleton (n : Nat) (c : Char) :
    (List.replicate n [c]).flatten = List.replicate n c := by
  induction n with
  | zero => rfl
  | succ k ih => simp [List.replicate_succ, ih]

/-- A negative repetition count yields the empty string. -/
theorem strRepeat_of_neg (piece : String) (count : Int) (h : count < 0) :
    strRepeat piece count = "" := by
  unfold strRepeat
  rw [Int.toNat_of_nonpos (le_of_lt h)]
  rfl

/-- String-level associativity, via the underlying character lists. -/
theorem strAppend_assoc (a b c : String) : a ++ b ++ c = a ++ (b ++ c) := by
  apply String.ext
  simp [String.data_append]

/-- A suffix of an appended list that is no longer than the right part
is a suffix of the right part. -/
theorem suffix_of_append_right {α : Type} (r pre m : List α)
    (h : r <:+ pre ++ m) (hlen : r.length ≤ m.length) : r <:+ m := by
  obtain ⟨t, ht⟩ := h
  have hl : t.length + r.length = pre.length + m.length := by
    have := congrArg List.length ht
    simpa using this
  have hpre : pre.length ≤ t.length := by omega
  have hr : r = (pre ++ m).drop t.length := by
    rw [← ht, List.drop_left]
  rw [List.drop_append_eq_append_drop, List.drop_eq_nil_of_le hpre,
    List.nil_append] at hr
  rw [hr]
  exact List.drop_suffix _ m

/-- When a suffix of an appended list is strictly longer than the right
part, its first element sits inside the left part, at the index
determined by the lengths. -/
theorem suffix_of_append_head {α : Type} (r pre m : List α)
    (h : r <:+ pre ++ m) (hlen : m.length < r.length) :
    pre[pre.length + m.length - r.length]? = r.head? := by
  obtain ⟨t, ht⟩ := h
  have hl : t.length + r.length = pre.length + m.length := by
    have := congrArg List.length ht
    simpa using this
  have hlt : t.length < pre.length := by omega
  have hr : r = (pre ++ m).drop t.length := by
    rw [← ht, List.drop_left]
  have hh : r.head? = (pre ++ m)[t.length]? := by
    rw [hr, List.head?_drop]
  rw [List.getElem?_append_left hlt] at hh
  have hidx : pre.length + m.length - r.length = t.length := by omega
  rw [hidx, hh]

/-! ## Theorems about the claims -/

/-- C1: the specification demands that `ProgressBar` guard `max == 0`
and render 0% (zero filled characters and the text "0%").  The code has
no such guard: with `MaxProgress = 0` it computes `0.0 / 0.0` (the
clamped current value is always 0 there), producing NaN, and then casts
NaN to `int`, which is undefined behaviour — modelled as `none`, never a
rendered bar.  This holds for every width, every current value, and both
percentage modes. -/
theorem progressBar_max_zero_undefined (CurrentProgress BarWidth : Int)
    (BarColor : String) (ShowPercentage : Bool) (PercentageColor : String) :
    ProgressBar CurrentProgress 0 BarWidth BarColor ShowPercentage
      PercentageColor = none := rfl

/-- C7: with an empty options list, `PromptNumberedMenu` writes the
error to stderr and returns `-1` immediately: nothing is printed to
stdout (in particular not the prompt) and no input line is consumed. -/
theorem promptNumberedMenu_empty_options
    (SeperatorCharacter PromptMessage InputQuestionText MessageColor
      NumberColor SeperatorColor OptionColor InputQuestionColor
      ErrorColor : String) (stdinLines : List String) :
    PromptNumberedMenu [] SeperatorCharacter PromptMessage
        InputQuestionText MessageColor NumberColor SeperatorColor
        OptionColor InputQuestionColor ErrorColor stdinLines
      = { result := -1, stdoutText := "",
          stderrText := "No menu options provided.\n",
          remainingInput := stdinLines } := rfl

/-- C10: `Header` is the specialisation of `AdvancedHeader` with the
same character, count and color on both sides and the trailing reset
enabled. -/
theorem header_refines_advancedHeader (LineCharacter : String)
    (LineCharacterCount : Int) (HeaderText SpacingCharacter LineColor
      HeaderTextColor SpacingCharacterColor : String) :
    Header LineCharacter LineCharacterCount HeaderText SpacingCharacter
        LineColor HeaderTextColor SpacingCharacterColor
      = AdvancedHeader LineCharacter LineCharacterCount LineCharacter
          LineCharacterCount HeaderText SpacingCharacter LineColor
          LineColor HeaderTextColor SpacingCharacterColor true := rfl

/-- C3: with a positive maximum, `ProgressBar` clamps the current value
into `[0, max]` before computing anything: a negative current renders
exactly like current `0`, and a current above the maximum renders
exactly like current `max`. -/
theorem progressBar_clamps_current (CurrentProgress MaxProgress BarWidth : Int)
    (BarColor : String) (ShowPercentage : Bool) (PercentageColor : String)
    (hmax : 0 < MaxProgress) :
    (CurrentProgress < 0 →
      ProgressBar CurrentProgress MaxProgress BarWidth BarColor
          ShowPercentage PercentageColor
        = ProgressBar 0 MaxProgress BarWidth BarColor ShowPercentage
            PercentageColor)
    ∧ (MaxProgress < CurrentProgress →
      ProgressBar CurrentProgress MaxProgress BarWidth BarColor
          ShowPercentage PercentageColor
        = ProgressBar MaxProgress MaxProgress BarWidth BarColor
            ShowPercentage PercentageColor) := by
  constructor
  · intro hc
    have e1 : (if CurrentProgress > MaxProgress then MaxProgress
        else CurrentProgress) = CurrentProgress := if_neg (by omega)
    have e2 : (if CurrentProgress < 0 then (0 : Int) else CurrentProgress)
        = 0 := if_pos hc
    have e3 : (if (0 : Int) > MaxProgress then MaxProgress else (0 : Int))
        = 0 := if_neg (by omega)
    simp only [ProgressBar, e1, e2, e3, ite_self]
  · intro hc
    have e1 : (if CurrentProgress > MaxProgress then MaxProgress
        else CurrentProgress) = MaxProgress := if_pos hc
    have e2 : (if MaxProgress < 0 then (0 : Int) else MaxProgress)
        = MaxProgress := if_neg (by omega)
    simp only [ProgressBar, e1, e2, ite_self]

/-- Witness for C3 at a concrete input: the hypotheses `0 < 10` and
`-5 < 0` hold, and the renderings agree. -/
theorem progressBar_clamps_current_witness :
    (0 : Int) < 10 ∧
      ProgressBar (-5) 10 10 "B" true "P" = ProgressBar 0 10 10 "B" true "P" :=
  ⟨by decide,
    (progressBar_clamps_current (-5) 10 10 "B" true "P" (by decide)).1 (by decide)⟩

/-- C4: `Header` returns exactly the line color, the repeated segment,
the spacing color and character, the text color and text, the spacing
color and character again, the line color and segment again, and the
reset; the segment is the line character repeated `toNat` of the count
times (so a negative count yields an empty segment), and the result
always ends with the reset sequence. -/
theorem header_exact_form (LineCharacter : String) (LineCharacterCount : Int)
    (HeaderText SpacingCharacter LineColor HeaderTextColor
      SpacingCharacterColor : String) :
    Header LineCharacter LineCharacterCount HeaderText SpacingCharacter
        LineColor HeaderTextColor SpacingCharacterColor
      = LineColor ++ strRepeat LineCharacter LineCharacterCount
        ++ SpacingCharacterColor ++ SpacingCharacter
        ++ HeaderTextColor ++ HeaderText
        ++ SpacingCharacterColor ++ SpacingCharacter
        ++ LineColor ++ strRepeat LineCharacter LineCharacterCount
        ++ Color.RESET
    ∧ (strRepeat LineCharacter LineCharacterCount).data
        = (List.replicate LineCharacterCount.toNat LineCharacter.data).flatten
    ∧ (LineCharacterCount < 0 →
        strRepeat LineCharacter LineCharacterCount = "")
    ∧ Color.RESET.data <:+ (Header LineCharacter LineCharacterCount
        HeaderText SpacingCharacter LineColor HeaderTextColor
        SpacingCharacterColor).data := by
  refine ⟨rfl, appendLoop_data LineCharacter LineCharacterCount.toNat,
    fun h => strRepeat_of_neg LineCharacter LineCharacterCount h, ?_⟩
  simp only [Header, String.data_append]
  exact List.suffix_append _ _

/-- Witness for C4 at a concrete input: the hypothesis `-2 < 0` holds
and the repeated segment is empty there. -/
theorem header_exact_form_witness :
    (-2 : Int) < 0 ∧ strRepeat "=" (-2) = "" :=
  ⟨by decide, (header_exact_form "=" (-2) "HI" " " "A" "B" "C").2.2.1 (by decide)⟩

/-- C9: `Spacing n` is exactly `n` newline characters (at the level of
character data, `toNat n` replicated newlines, so nothing else is in the
string), and any non-positive `n` yields the empty string. -/
theorem spacing_newlines (n : Int) :
    (Spacing n).data = List.replicate n.toNat '\n'
    ∧ (n ≤ 0 → Spacing n = "") := by
  constructor
  · rw [Spacing, strRepeat, appendLoop_data]
    have hd : "\n".data = ['\n'] := rfl
    rw [hd, flatten_replicate_singleton]
  · intro h
    rw [Spacing, strRepeat, Int.toNat_of_nonpos h]
    rfl

/-- Witness for C9 at a concrete input: the hypothesis `-1 ≤ 0` holds
and `Spacing (-1)` is empty. -/
theorem spacing_newlines_witness : (-1 : Int) ≤ 0 ∧ Spacing (-1) = "" :=
  ⟨by decide, (spacing_newlines (-1)).2 (by decide)⟩

/-- C6 counterexample: the claim says the output ends with the reset
sequence IF AND ONLY IF `resetOnEnd` is true; but with
`RightLineCharacter` equal to the reset sequence itself and
`resetOnEnd = false` the output still ends with the reset sequence, so
the claimed equivalence is false at this concrete input. -/
theorem advancedHeader_endswith_reset_cex :
    Color.RESET.data <:+
      (AdvancedHeader "x" 1 Color.RESET 1 "" "" "" "" "" "" false).data := by
  decide

/-- C6 amended: the trailing reset is APPENDED exactly when
`resetOnEnd` is true — the output with the flag on equals the output
with the flag off followed by `RESET` (so the rest of the output is
unchanged), and with the flag on the output always ends with the reset
sequence; with the flag off no reset is appended, though the output can
still happen to end with the reset sequence when a parameter itself
does. -/
theorem advancedHeader_reset_flag (LeftLineCharacter : String)
    (LeftLineCharacterCount : Int) (RightLineCharacter : String)
    (RightLineCharacterCount : Int) (HeaderText SpacingCharacter
      LeftLineColor RightLineColor HeaderTextColor
      SpacingCharacterColor : String) :
    AdvancedHeader LeftLineCharacter LeftLineCharacterCount
        RightLineCharacter RightLineCharacterCount HeaderText
        SpacingCharacter LeftLineColor RightLineColor HeaderTextColor
        SpacingCharacterColor true
      = AdvancedHeader LeftLineCharacter LeftLineCharacterCount
          RightLineCharacter RightLineCharacterCount HeaderText
          SpacingCharacter LeftLineColor RightLineColor HeaderTextColor
          SpacingCharacterColor false ++ Color.RESET
    ∧ Color.RESET.data <:+ (AdvancedHeader LeftLineCharacter
        LeftLineCharacterCount RightLineCharacter RightLineCharacterCount
        HeaderText SpacingCharacter LeftLineColor RightLineColor
        HeaderTextColor SpacingCharacterColor true).data := by
  have h1 : AdvancedHeader LeftLineCharacter LeftLineCharacterCount
      RightLineCharacter RightLineCharacterCount HeaderText
      SpacingCharacter LeftLineColor RightLineColor HeaderTextColor
      SpacingCharacterColor true
    = AdvancedHeader LeftLineCharacter LeftLineCharacterCount
        RightLineCharacter RightLineCharacterCount HeaderText
        SpacingCharacter LeftLineColor RightLineColor HeaderTextColor
        SpacingCharacterColor false ++ Color.RESET := by
    simp [AdvancedHeader]
  refine ⟨h1, ?_⟩
  rw [h1, String.data_append]
  exact List.suffix_append _ _

/-- C5: in `AdvancedProgressBar` the prefix and suffix are fully
optional: the output decomposes as the prefix part (empty when
`PrefixText` is empty, otherwise its color followed by the text), the
bar core (the same call with both texts empty and no reset), the suffix
part (empty when `SuffixText` is empty, otherwise a separating space,
its color and the text), and the optional reset — so an empty prefix or
suffix text contributes nothing at all, not even a color code. -/
theorem advancedProgressBar_optional_ends (CurrentPercentage MaxPercentage
    BarWidth : Int) (PrefixText SuffixText FillChar UnfilledChar FillColor
      UnfilledColor TextColor PrefixColor SuffixColor BracketColor : String)
    (ShowPercentage ShowBrackets ResetColorOnCompletion : Bool) :
    AdvancedProgressBar CurrentPercentage MaxPercentage BarWidth PrefixText
        SuffixText FillChar UnfilledChar FillColor UnfilledColor TextColor
        PrefixColor SuffixColor BracketColor ShowPercentage ShowBrackets
        ResetColorOnCompletion
      = (if PrefixText = "" then "" else PrefixColor ++ PrefixText)
        ++ AdvancedProgressBar CurrentPercentage MaxPercentage BarWidth ""
            "" FillChar UnfilledChar FillColor UnfilledColor TextColor
            PrefixColor SuffixColor BracketColor ShowPercentage
            ShowBrackets false
        ++ (if SuffixText = "" then "" else " " ++ SuffixColor ++ SuffixText)
        ++ (if ResetColorOnCompletion then Color.RESET else "") := by
  by_cases hp : PrefixText = "" <;> by_cases hs : SuffixText = "" <;>
    cases ResetColorOnCompletion <;>
      · apply String.ext
        simp [AdvancedProgressBar, hp, hs, String.data_append,
          List.append_assoc]

/-- Transfer lemma: if the reset escape sequence is a suffix of
`pre ++ m` and no position in the last four slots of `pre` holds the
escape character, then the reset sequence is a suffix of `m` alone. -/
theorem reset_suffix_transfer (pre m : List Char)
    (hwin : ∀ i, pre.length - 4 ≤ i → pre[i]? ≠ some '\x1b')
    (h : Color.RESET.data <:+ pre ++ m) : Color.RESET.data <:+ m := by
  have hr4 : Color.RESET.data.length = 4 := rfl
  by_cases hm : Color.RESET.data.length ≤ m.length
  · exact suffix_of_append_right _ _ _ h hm
  · exfalso
    have hlen : m.length < Color.RESET.data.length := by omega
    have hh := suffix_of_append_head _ pre m h hlen
    have hhead : Color.RESET.data.head? = some '\x1b' := rfl
    refine hwin (pre.length + m.length - Color.RESET.data.length)
      (by omega) ?_
    rw [hh, hhead]

/-- C8 counterexample: the claim says neither `Error` nor `Warning`
output ever carries a trailing reset sequence, but with the message
itself equal to the reset sequence, `Error` returns exactly
`LIGHT_RED ++ "[ERROR]: " ++ RESET`, which ends with the reset
sequence. -/
theorem error_trailing_reset_cex :
    Error Color.RESET = Color.LIGHT_RED ++ "[ERROR]: " ++ Color.RESET
    ∧ Color.RESET.data <:+ (Error Color.RESET).data :=
  ⟨rfl, by decide⟩

/-- C8 amended: `Error m` is exactly `LIGHT_RED ++ "[ERROR]: " ++ m` and
`Warning m` is exactly `LIGHT_YELLOW ++ "[WARNING]: " ++ m`; the
functions themselves append no reset, so the result ends with the reset
sequence only when the message itself does. -/
theorem error_warning_exact_form (m : String) :
    Error m = Color.LIGHT_RED ++ "[ERROR]: " ++ m
    ∧ Warning m = Color.LIGHT_YELLOW ++ "[WARNING]: " ++ m
    ∧ (Color.RESET.data <:+ (Error m).data → Color.RESET.data <:+ m.data)
    ∧ (Color.RESET.data <:+ (Warning m).data →
        Color.RESET.data <:+ m.data) := by
  refine ⟨rfl, rfl, fun h => ?_, fun h => ?_⟩
  · have hd : (Error m).data = (Color.LIGHT_RED ++ "[ERROR]: ").data ++ m.data := by
      simp [Error, String.data_append]
    rw [hd] at h
    refine reset_suffix_transfer _ _ (fun i hi hesc => ?_) h
    have hlen : (Color.LIGHT_RED ++ "[ERROR]: ").data.length = 14 := rfl
    rw [hlen] at hi
    by_cases hlt : i < 14
    · interval_cases i <;> exact absurd hesc (by decide)
    · rw [List.getElem?_eq_none (by omega)] at hesc
      exact Option.noConfusion hesc
  · have hd : (Warning m).data = (Color.LIGHT_YELLOW ++ "[WARNING]: ").data ++ m.data := by
      simp [Warning, String.data_append]
    rw [hd] at h
    refine reset_suffix_transfer _ _ (fun i hi hesc => ?_) h
    have hlen : (Color.LIGHT_YELLOW ++ "[WARNING]: ").data.length = 16 := rfl
    rw [hlen] at hi
    by_cases hlt : i < 16
    · interval_cases i <;> exact absurd hesc (by decide)
    · rw [List.getElem?_eq_none (by omega)] at hesc
      exact Option.noConfusion hesc

/-- Witness for C8 amended at a concrete input: with the message equal
to the reset sequence the hypothesis of the transfer implication holds,
and so does its conclusion. -/
theorem error_warning_exact_form_witness :
    Color.RESET.data <:+ (Error Color.RESET).data
    ∧ Color.RESET.data <:+ Color.RESET.data :=
  ⟨by decide, (error_warning_exact_form Color.RESET).2.2.1 (by decide)⟩

/-- C2 counterexample: the claim says that after an out-of-range entry
the menu re-prompts and a later in-range entry "1" still returns 0, and
that invalid input never ends the call with a failure value; but on the
input stream ["5", "1"] with two options the call prints the
out-of-range error message and then returns the failure value -1,
never reading the second line. -/
theorem promptNumberedMenu_no_retry_cex :
    (PromptNumberedMenu ["A", "B"] ":" "menu" "choose" "" "" "" "" "" ""
        ["5", "1"]).result = -1
    ∧ (PromptNumberedMenu ["A", "B"] ":" "menu" "choose" "" "" "" "" "" ""
        ["5", "1"]).remainingInput = ["1"]
    ∧ (PromptNumberedMenu ["A", "B"] ":" "menu" "choose" "" "" "" "" "" ""
        ["5", "1"]).stdoutText
      = menuPromptText ["A", "B"] ":" "menu" "choose" "" "" "" "" ""
        ++ "" ++ "Invalid choice. Please enter a number between 1 and 2.\n\n"
        ++ Color.RESET ++ Color.RESET := by
  decide

/-- C2 amended: `PromptNumberedMenu` makes a SINGLE attempt: with a
non-empty options list it prints the prompt and options once and reads
exactly one line; if that line is not a valid integer, is too large for
`int`, or is an integer outside `[1, options.size()]`, it prints the
corresponding error message ("Invalid input. Please enter a numeric
value.", "The number you entered is out of range. Please try again.",
or "Invalid choice. Please enter a number between 1 and N.") in the
error color and returns -1, leaving the rest of the input unread (there
is no loop); if the line is an in-range integer `k` it returns
`k - 1`. -/
theorem promptNumberedMenu_single_attempt (Options : List String)
    (SeperatorCharacter PromptMessage InputQuestionText MessageColor
      NumberColor SeperatorColor OptionColor InputQuestionColor
      ErrorColor : String) (input : String) (rest : List String)
    (hopt : Options ≠ []) :
    (stoi input = .error .invalidArgument →
      PromptNumberedMenu Options SeperatorCharacter PromptMessage
          InputQuestionText MessageColor NumberColor SeperatorColor
          OptionColor InputQuestionColor ErrorColor (input :: rest)
        = { result := -1,
            stdoutText := menuPromptText Options SeperatorCharacter
                PromptMessage InputQuestionText MessageColor NumberColor
                SeperatorColor OptionColor InputQuestionColor
              ++ ErrorColor
              ++ "Invalid input. Please enter a numeric value.\n\n"
              ++ Color.RESET ++ Color.RESET,
            stderrText := "", remainingInput := rest })
    ∧ (stoi input = .error .outOfRange →
      PromptNumberedMenu Options SeperatorCharacter PromptMessage
          InputQuestionText MessageColor NumberColor SeperatorColor
          OptionColor InputQuestionColor ErrorColor (input :: rest)
        = { result := -1,
            stdoutText := menuPromptText Options SeperatorCharacter
                PromptMessage InputQuestionText MessageColor NumberColor
                SeperatorColor OptionColor InputQuestionColor
              ++ ErrorColor
              ++ "The number you entered is out of range. Please try again.\n\n"
              ++ Color.RESET ++ Color.RESET,
            stderrText := "", remainingInput := rest })
    ∧ (∀ k : Int, stoi input = .ok k →
        (k < 1 ∨ (Options.length : Int) < k) →
      PromptNumberedMenu Options SeperatorCharacter PromptMessage
          InputQuestionText MessageColor NumberColor SeperatorColor
          OptionColor InputQuestionColor ErrorColor (input :: rest)
        = { result := -1,
            stdoutText := menuPromptText Options SeperatorCharacter
                PromptMessage InputQuestionText MessageColor NumberColor
                SeperatorColor OptionColor InputQuestionColor
              ++ ErrorColor
              ++ "Invalid choice. Please enter a number between 1 and "
              ++ toString Options.length ++ ".\n\n"
              ++ Color.RESET ++ Color.RESET,
            stderrText := "", remainingInput := rest })
    ∧ (∀ k : Int, stoi input = .ok k → 1 ≤ k → k ≤ (Options.length : Int) →
      PromptNumberedMenu Options SeperatorCharacter PromptMessage
          InputQuestionText MessageColor NumberColor SeperatorColor
          OptionColor InputQuestionColor ErrorColor (input :: rest)
        = { result := k - 1,
            stdoutText := menuPromptText Options SeperatorCharacter
                PromptMessage InputQuestionText MessageColor NumberColor
                SeperatorColor OptionColor InputQuestionColor
              ++ Color.RESET,
            stderrText := "", remainingInput := rest }) := by
  have hne : Options.isEmpty = false := by
    simpa [List.isEmpty_iff] using hopt
  refine ⟨fun h => ?_, fun h => ?_, fun k hk hrange => ?_,
    fun k hk h1 h2 => ?_⟩
  · simp only [PromptNumberedMenu, hne, h]
    rfl
  · simp only [PromptNumberedMenu, hne, h]
    rfl
  · simp only [PromptNumberedMenu, hne, hk]
    rw [if_pos hrange]
    rfl
  · have hcond : ¬ (k < 1 ∨ (Options.length : Int) < k) := by
      push_neg
      exact ⟨h1, h2⟩
    simp only [PromptNumberedMenu, hne, hk]
    rw [if_neg hcond]
    rfl

/-- Witness for C2 amended at a concrete input: two options, first line
"5" (out of range), so the call prints the out-of-range choice message
and returns -1, leaving ["1"] unread. -/
theorem promptNumberedMenu_single_attempt_witness :
    (["A", "B"] ≠ ([] : List String))
    ∧ PromptNumberedMenu ["A", "B"] ":" "p" "q" "" "" "" "" "" ""
        ["5", "1"]
      = { result := -1,
          stdoutText := menuPromptText ["A", "B"] ":" "p" "q" "" "" "" "" ""
            ++ ""
            ++ "Invalid choice. Please enter a number between 1 and "
            ++ toString (["A", "B"] : List String).length ++ ".\n\n"
            ++ Color.RESET ++ Color.RESET,
          stderrText := "", remainingInput := ["1"] } :=
  ⟨by decide,
    (promptNumberedMenu_single_attempt ["A", "B"] ":" "p" "q" "" "" "" ""
        "" "" "5" ["1"] (by decide)).2.2.1 5 rfl (Or.inr (by decide))⟩
